import Mathlib

/-!
Verification of the deterministic financial-calculation engine of
advanced_finance_guru.py (class FinancialGuru): progressive tax-slab
computation, SIP/SWP/EMI annuity formulas, goal planning, tax-saving
suggestions, and the volatility-based risk score.

Numbers are modelled exactly: Python floats become rationals ℚ (the
standard-deviation step of the risk scorer, which takes a square root,
is modelled over ℝ).  A Python try/except that swallows an arithmetic
fault (division by zero, zero to a negative power) and returns a default
is modelled by an explicit conditional returning that default on exactly
the faulting inputs.
-/

namespace FinancialGuru

/-- The 'IND' tax slab table from FinancialGuru.__init__:
[(250000, 0), (500000, 0.05), (1000000, 0.2), (float('inf'), 0.3)].
A bound of none models float('inf'). -/
def tax_slabs_IND : List (Option ℚ × ℚ) :=
  [(some 250000, 0), (some 500000, 5/100), (some 1000000, 20/100), (none, 30/100)]

/-- The loop body of FinancialGuru.calculate_tax:
for slab, rate in slabs: if remaining <= 0: break;
amount = min(remaining, slab); tax += amount * rate; remaining -= amount.
Python's min(remaining, float('inf')) is remaining, hence the none case. -/
def taxLoop : ℚ → ℚ → List (Option ℚ × ℚ) → ℚ
  | tax, _, [] => tax
  | tax, remaining, (slab, rate) :: rest =>
    if remaining ≤ 0 then tax
    else
      let amount := match slab with
        | none => remaining
        | some b => min remaining b
      taxLoop (tax + amount * rate) (remaining - amount) rest

/-- FinancialGuru.calculate_tax: taxable = max(income - deductions, 0),
then the slab loop over the IND table.  No arithmetic in the body can
fault, so the except-branch (return 0) is unreachable. -/
def calculate_tax (income : ℚ) (deductions : ℚ) : ℚ :=
  taxLoop 0 (max (income - deductions) 0) tax_slabs_IND

/-- FinancialGuru.calculate_sip.  The conditional models the caught
ZeroDivisionError: Python returns 0 when (1+monthly_rate)**months - 1 == 0. -/
def calculate_sip (target : ℚ) (years : ℕ) (rate : ℚ) : ℚ :=
  let monthly_rate := rate / 1200
  let months := years * 12
  if (1 + monthly_rate) ^ months - 1 = 0 then 0
  else target * monthly_rate / ((1 + monthly_rate) ^ months - 1)

/-- FinancialGuru.calculate_swp.  (1+monthly_rate)**(-months) raises
ZeroDivisionError when the base is 0 and months > 0, and the division
raises it when 1 - (1+monthly_rate)**(-months) == 0; both caught paths
return 0. -/
def calculate_swp (corpus : ℚ) (years : ℕ) (rate : ℚ) : ℚ :=
  let monthly_rate := rate / 1200
  let months := years * 12
  if 1 + monthly_rate = 0 ∧ 0 < months then 0
  else if 1 - ((1 + monthly_rate) ^ months)⁻¹ = 0 then 0
  else corpus * monthly_rate / (1 - ((1 + monthly_rate) ^ months)⁻¹)

/-- FinancialGuru.calculate_emi.  The conditional models the caught
ZeroDivisionError on (1+monthly_rate)**months - 1 == 0. -/
def calculate_emi (principal : ℚ) (rate : ℚ) (years : ℕ) : ℚ :=
  let monthly_rate := rate / 1200
  let months := years * 12
  if (1 + monthly_rate) ^ months - 1 = 0 then 0
  else principal * monthly_rate * (1 + monthly_rate) ^ months /
    ((1 + monthly_rate) ^ months - 1)

/-- First suggestion string of FinancialGuru.tax_saving_options
(byte-for-byte as it appears in the source file). -/
def elssSuggestion : String := "Invest ‚Çπ1.5L in ELSS (Section 80C)"

/-- Second suggestion string of FinancialGuru.tax_saving_options. -/
def healthSuggestion : String := "Health Insurance (Section 80D)"

/-- Third suggestion string of FinancialGuru.tax_saving_options. -/
def npsSuggestion : String := "NPS Investment (Section 80CCD)"

/-- FinancialGuru.tax_saving_options: three independent threshold checks
appending, in order, the ELSS, health-insurance and NPS suggestions.
Nothing in the body can fault, so the except branch (which would return
the partially built list) is unreachable. -/
def tax_saving_options (income : ℚ) : List String :=
  (if income > 1500000 then [elssSuggestion] else []) ++
  (if income > 700000 then [healthSuggestion] else []) ++
  (if income > 500000 then [npsSuggestion] else [])

/-- The record returned by FinancialGuru.create_goal_plan. -/
structure GoalPlan where
  future_value : ℚ
  monthly_sip : ℚ
  monthly_swp : ℚ
deriving DecidableEq

/-- FinancialGuru.create_goal_plan: future_value = current_cost *
(1 + inflation/100)**years, then SIP at 12% over the goal horizon and
SWP at 8% over 10 years.  In exact arithmetic nothing in the body
faults (calculate_sip and calculate_swp catch their own faults), so the
except branch (return \x7b\x7d) is unreachable in this model; see the
discussion of the float-overflow path in the results. -/
def create_goal_plan (_goal_type : String) (current_cost : ℚ) (years : ℕ)
    (inflation : ℚ) : GoalPlan :=
  let future_value := current_cost * (1 + inflation / 100) ^ years
  ⟨future_value, calculate_sip future_value years 12,
    calculate_swp future_value 10 8⟩

/-- The consecutive simple percentage changes of a close-price series:
pandas Series.pct_change minus its leading NaN entry (which pandas std
skips anyway).  A zero previous close, which in Python produces an
inf/NaN entry, is excluded by a guard in the risk profile below. -/
def pctChanges : List ℚ → List ℚ
  | [] => []
  | [_] => []
  | a :: b :: rest => (b - a) / a :: pctChanges (b :: rest)

/-- Arithmetic mean of a list, as used by pandas Series.std. -/
def listMean (xs : List ℚ) : ℚ := xs.sum / (xs.length : ℚ)

/-- Sample variance with ddof = 1, the pandas Series.std default.
Well-defined (non-NaN) only for two or more samples; the risk profile
guards that below. -/
def sampleVar (xs : List ℚ) : ℚ :=
  (xs.map (fun x => (x - listMean xs) ^ 2)).sum / ((xs.length : ℚ) - 1)

/-- Python's int() truncation toward zero of a real value. -/
noncomputable def pyInt (x : ℝ) : ℤ := if 0 ≤ x then ⌊x⌋ else ⌈x⌉

/-- FinancialGuru._calculate_risk_profile on a series of closes:
min(int(10 - std(pct_change) * sqrt(252) * 100), 10).  The three guards
model the code's 5-returning paths: an empty frame returns 5 directly;
a zero previous close makes pct_change produce an inf/NaN entry so int()
raises and the except returns 5; fewer than two changes (fewer than
three closes) make the ddof=1 std NaN so int(NaN) raises and the except
returns 5. -/
noncomputable def _calculate_risk_profile (closes : List ℚ) : ℤ :=
  if closes.isEmpty then 5
  else if closes.dropLast.any (fun p => p == 0) then 5
  else if closes.length < 3 then 5
  else
    min (pyInt ((10 : ℝ) -
      Real.sqrt ((sampleVar (pctChanges closes) : ℚ) : ℝ) * Real.sqrt 252 * 100)) 10

/-- The progressive slab walk as the spec words it (§4.3): for each slab
consume amount = min(remaining, slabWidth) at that slab's rate, accumulate
tax += amount*rate, reduce remaining -= amount, stop when remaining <= 0.
This definition follows the spec's words (the stop test comes after the
update) and is compared with the source-derived taxLoop. -/
def specSlabWalk : ℚ → ℚ → List (Option ℚ × ℚ) → ℚ
  | tax, _, [] => tax
  | tax, remaining, (slab, rate) :: rest =>
    let amount := match slab with
      | none => remaining
      | some b => min remaining b
    if remaining - amount ≤ 0 then tax + amount * rate
    else specSlabWalk (tax + amount * rate) (remaining - amount) rest

/-- Tax as the spec words it: taxable = max(income - deductions, 0), then
the spec's slab walk over the default table. -/
def spec_tax (income deductions : ℚ) : ℚ :=
  specSlabWalk 0 (max (income - deductions) 0) tax_slabs_IND

/-- Every finite slab bound in the table is positive. -/
def PosBounds (slabs : List (Option ℚ × ℚ)) : Prop :=
  ∀ b r, (some b, r) ∈ slabs → 0 < b

/-- Every rate in the table is non-negative. -/
def NonnegRates (slabs : List (Option ℚ × ℚ)) : Prop :=
  ∀ b r, (b, r) ∈ slabs → 0 ≤ r

end FinancialGuru

open FinancialGuru

lemma posBounds_IND : PosBounds tax_slabs_IND := by
  intro b r h
  simp only [tax_slabs_IND, List.mem_cons, List.not_mem_nil, or_false,
    Prod.mk.injEq, Option.some.injEq] at h
  rcases h with ⟨hb, _⟩ | ⟨hb, _⟩ | ⟨hb, _⟩ | ⟨hb, _⟩ <;> first
    | (subst hb; norm_num)
    | exact absurd hb (by simp)

lemma nonnegRates_IND : NonnegRates tax_slabs_IND := by
  intro b r h
  simp only [tax_slabs_IND, List.mem_cons, List.not_mem_nil, or_false,
    Prod.mk.injEq] at h
  rcases h with ⟨_, hr⟩ | ⟨_, hr⟩ | ⟨_, hr⟩ | ⟨_, hr⟩ <;> (subst hr; norm_num)

lemma taxLoop_cons_none (tax r rate : ℚ) (rest : List (Option ℚ × ℚ)) :
    taxLoop tax r ((none, rate) :: rest) =
      if r ≤ 0 then tax else taxLoop (tax + r * rate) (r - r) rest := rfl

lemma taxLoop_cons_some (tax r b rate : ℚ) (rest : List (Option ℚ × ℚ)) :
    taxLoop tax r ((some b, rate) :: rest) =
      if r ≤ 0 then tax else taxLoop (tax + min r b * rate) (r - min r b) rest := rfl

lemma specSlabWalk_cons_none (tax r rate : ℚ) (rest : List (Option ℚ × ℚ)) :
    specSlabWalk tax r ((none, rate) :: rest) =
      if r - r ≤ 0 then tax + r * rate
      else specSlabWalk (tax + r * rate) (r - r) rest := rfl

lemma specSlabWalk_cons_some (tax r b rate : ℚ) (rest : List (Option ℚ × ℚ)) :
    specSlabWalk tax r ((some b, rate) :: rest) =
      if r - min r b ≤ 0 then tax + min r b * rate
      else specSlabWalk (tax + min r b * rate) (r - min r b) rest := rfl

lemma taxLoop_zero (slabs : List (Option ℚ × ℚ)) (tax : ℚ) :
    taxLoop tax 0 slabs = tax := by
  cases slabs with
  | nil => rfl
  | cons head rest =>
    obtain ⟨slab, rate⟩ := head
    cases slab with
    | none => rw [taxLoop_cons_none, if_pos le_rfl]
    | some b => rw [taxLoop_cons_some, if_pos le_rfl]

lemma specSlabWalk_zero (slabs : List (Option ℚ × ℚ)) (hp : PosBounds slabs)
    (tax : ℚ) : specSlabWalk tax 0 slabs = tax := by
  cases slabs with
  | nil => rfl
  | cons head rest =>
    obtain ⟨slab, rate⟩ := head
    cases slab with
    | none => rw [specSlabWalk_cons_none]; simp
    | some b =>
      have hb : 0 < b := hp b rate (List.mem_cons_self _ _)
      rw [specSlabWalk_cons_some, min_eq_left hb.le]
      simp

lemma taxLoop_eq_specSlabWalk (slabs : List (Option ℚ × ℚ))
    (hp : PosBounds slabs) :
    ∀ tax r : ℚ, 0 ≤ r → taxLoop tax r slabs = specSlabWalk tax r slabs := by
  induction slabs with
  | nil => intro tax r _; rfl
  | cons head rest ih =>
    obtain ⟨slab, rate⟩ := head
    have hpRest : PosBounds rest := fun b ρ hm => hp b ρ (List.mem_cons_of_mem _ hm)
    intro tax r hr
    by_cases h0 : r ≤ 0
    · have hr0 : r = 0 := le_antisymm h0 hr
      subst hr0
      rw [specSlabWalk_zero _ hp, taxLoop_zero]
    · push_neg at h0
      cases slab with
      | none =>
        rw [taxLoop_cons_none, specSlabWalk_cons_none, if_neg (not_le.mpr h0),
          sub_self, if_pos le_rfl, taxLoop_zero]
      | some b =>
        have hra : 0 ≤ r - min r b := by
          have hmr : min r b ≤ r := min_le_left _ _
          linarith
        rw [taxLoop_cons_some, specSlabWalk_cons_some, if_neg (not_le.mpr h0)]
        by_cases hstop : r - min r b ≤ 0
        · have hzero : r - min r b = 0 := le_antisymm hstop hra
          rw [if_pos hstop, hzero, taxLoop_zero]
        · rw [if_neg hstop]
          exact ih hpRest _ _ hra

lemma le_taxLoop (slabs : List (Option ℚ × ℚ)) (hp : PosBounds slabs)
    (hnr : NonnegRates slabs) :
    ∀ tax r : ℚ, 0 ≤ r → tax ≤ taxLoop tax r slabs := by
  induction slabs with
  | nil => intro tax r _; exact le_rfl
  | cons head rest ih =>
    obtain ⟨slab, rate⟩ := head
    have hpRest : PosBounds rest := fun b ρ hm => hp b ρ (List.mem_cons_of_mem _ hm)
    have hnrRest : NonnegRates rest := fun b ρ hm => hnr b ρ (List.mem_cons_of_mem _ hm)
    have hrate : 0 ≤ rate := hnr slab rate (List.mem_cons_self _ _)
    intro tax r hr
    cases slab with
    | none =>
      rw [taxLoop_cons_none]
      by_cases h0 : r ≤ 0
      · rw [if_pos h0]
      · push_neg at h0
        rw [if_neg (not_le.mpr h0)]
        calc tax ≤ tax + r * rate := by nlinarith
          _ ≤ _ := ih hpRest hnrRest _ _ (by simp)
    | some b =>
      rw [taxLoop_cons_some]
      by_cases h0 : r ≤ 0
      · rw [if_pos h0]
      · push_neg at h0
        have hb : 0 < b := hp b rate (List.mem_cons_self _ _)
        have ha : 0 ≤ min r b := le_min h0.le hb.le
        have hra : 0 ≤ r - min r b := by
          have hmr : min r b ≤ r := min_le_left _ _
          linarith
        rw [if_neg (not_le.mpr h0)]
        calc tax ≤ tax + min r b * rate := by nlinarith
          _ ≤ _ := ih hpRest hnrRest _ _ hra

lemma taxLoop_mono (slabs : List (Option ℚ × ℚ)) (hp : PosBounds slabs)
    (hnr : NonnegRates slabs) :
    ∀ t1 t2 r1 r2 : ℚ, t1 ≤ t2 → 0 ≤ r1 → r1 ≤ r2 →
      taxLoop t1 r1 slabs ≤ taxLoop t2 r2 slabs := by
  induction slabs with
  | nil => intro t1 t2 r1 r2 ht _ _; exact ht
  | cons head rest ih =>
    obtain ⟨slab, rate⟩ := head
    have hpRest : PosBounds rest := fun b ρ hm => hp b ρ (List.mem_cons_of_mem _ hm)
    have hnrRest : NonnegRates rest := fun b ρ hm => hnr b ρ (List.mem_cons_of_mem _ hm)
    have hrate : 0 ≤ rate := hnr slab rate (List.mem_cons_self _ _)
    intro t1 t2 r1 r2 ht h1 h12
    cases slab with
    | none =>
      rw [taxLoop_cons_none, taxLoop_cons_none]
      by_cases hc1 : r1 ≤ 0
      · rw [if_pos hc1]
        by_cases hc2 : r2 ≤ 0
        · rw [if_pos hc2]; exact ht
        · push_neg at hc2
          rw [if_neg (not_le.mpr hc2)]
          calc t1 ≤ t2 + r2 * rate := by nlinarith
            _ ≤ _ := le_taxLoop rest hpRest hnrRest _ _ (by simp)
      · push_neg at hc1
        have hc2 : 0 < r2 := lt_of_lt_of_le hc1 h12
        rw [if_neg (not_le.mpr hc1), if_neg (not_le.mpr hc2)]
        exact ih hpRest hnrRest _ _ _ _ (by nlinarith) (by simp) (by simp)
    | some b =>
      have hb : 0 < b := hp b rate (List.mem_cons_self _ _)
      rw [taxLoop_cons_some, taxLoop_cons_some]
      by_cases hc1 : r1 ≤ 0
      · rw [if_pos hc1]
        by_cases hc2 : r2 ≤ 0
        · rw [if_pos hc2]; exact ht
        · push_neg at hc2
          rw [if_neg (not_le.mpr hc2)]
          have ha : 0 ≤ min r2 b := le_min hc2.le hb.le
          have hra : 0 ≤ r2 - min r2 b := by
            have hmr : min r2 b ≤ r2 := min_le_left _ _
            linarith
          calc t1 ≤ t2 + min r2 b * rate := by nlinarith
            _ ≤ _ := le_taxLoop rest hpRest hnrRest _ _ hra
      · push_neg at hc1
        have hc2 : 0 < r2 := lt_of_lt_of_le hc1 h12
        rw [if_neg (not_le.mpr hc1), if_neg (not_le.mpr hc2)]
        have hamin : min r1 b ≤ min r2 b := min_le_min h12 le_rfl
        have ha1 : 0 ≤ min r1 b := le_min hc1.le hb.le
        have hra1 : 0 ≤ r1 - min r1 b := by
          have hmr : min r1 b ≤ r1 := min_le_left _ _
          linarith
        have hmono : r1 - min r1 b ≤ r2 - min r2 b := by
          rcases le_total r1 b with hx | hx <;> rcases le_total r2 b with hy | hy <;>
            simp [min_eq_left, min_eq_right, hx, hy] <;> linarith
        exact ih hpRest hnrRest _ _ _ _ (by nlinarith) hra1 hmono

/-- C1: the spec's worked examples for the default slab table.  The third
example fails on the code: the loop consumes min(remaining, slab) so each
stored bound acts as the width of its bracket, and taxable 600000 is
250000 at rate 0 plus the remaining 350000 entirely inside the
second slab's width 500000 at rate 0.05, i.e. 17500, not 32500. -/
theorem calculate_tax_600000_ne_32500 :
    FinancialGuru.calculate_tax 600000 0 ≠ 32500 := by
  norm_num [FinancialGuru.calculate_tax, FinancialGuru.tax_slabs_IND,
    FinancialGuru.taxLoop, max_def, min_def]

/-- C1 (amended): tax(0,0) = 0, tax(200000,0) = 0, and with the stored
bounds consumed as bracket widths tax(600000,0) = 17500. -/
theorem calculate_tax_worked_examples :
    FinancialGuru.calculate_tax 0 0 = 0 ∧
    FinancialGuru.calculate_tax 200000 0 = 0 ∧
    FinancialGuru.calculate_tax 600000 0 = 17500 := by
  refine ⟨?_, ?_, ?_⟩ <;>
    norm_num [FinancialGuru.calculate_tax, FinancialGuru.tax_slabs_IND,
      FinancialGuru.taxLoop, max_def, min_def]

/-- C2: for every income and deductions, calculate_tax equals the spec's
progressive slab walk (taxable clamped at 0, each stored bound consumed
as the width of its bracket, stop when remaining reaches 0). -/
theorem calculate_tax_eq_spec_slab_walk :
    ∀ income deductions : ℚ,
      FinancialGuru.calculate_tax income deductions =
        FinancialGuru.spec_tax income deductions := by
  intro income deductions
  exact taxLoop_eq_specSlabWalk _ posBounds_IND _ _ (le_max_right _ _)

/-- C10: with deductions fixed, calculate_tax is monotone non-decreasing in
income, and it is always non-negative, under the default slab table. -/
theorem calculate_tax_monotone :
    ∀ deductions i1 i2 : ℚ, i1 ≤ i2 →
      FinancialGuru.calculate_tax i1 deductions ≤
        FinancialGuru.calculate_tax i2 deductions ∧
      0 ≤ FinancialGuru.calculate_tax i1 deductions := by
  intro d i1 i2 h
  constructor
  · exact taxLoop_mono _ posBounds_IND nonnegRates_IND 0 0 _ _ le_rfl
      (le_max_right _ _) (max_le_max (by linarith) le_rfl)
  · exact le_taxLoop _ posBounds_IND nonnegRates_IND 0 _ (le_max_right _ _)

/-- C10 witness: concrete instance of tax monotonicity at incomes 100000
and 600000 with zero deductions. -/
theorem calculate_tax_monotone_witness :
    FinancialGuru.calculate_tax 100000 0 ≤ FinancialGuru.calculate_tax 600000 0 ∧
    0 ≤ FinancialGuru.calculate_tax 100000 0 :=
  calculate_tax_monotone 0 100000 600000 (by norm_num)

/-- C6: sip, swp and emi all return 0 (without propagating a fault) whenever
years = 0 or rate = 0, i.e. whenever the annuity factor (1+i)^n - 1 is zero. -/
theorem annuity_degenerate_returns_zero :
    ∀ (target corpus principal : ℚ) (years : ℕ) (rate : ℚ),
      years = 0 ∨ rate = 0 →
      FinancialGuru.calculate_sip target years rate = 0 ∧
      FinancialGuru.calculate_swp corpus years rate = 0 ∧
      FinancialGuru.calculate_emi principal rate years = 0 := by
  intro target corpus principal years rate h
  rcases h with h | h <;> subst h <;>
    refine ⟨?_, ?_, ?_⟩ <;>
      simp [FinancialGuru.calculate_sip, FinancialGuru.calculate_swp,
        FinancialGuru.calculate_emi]

/-- C6 witness: sip, swp and emi all return 0 at years = 0, rate = 12. -/
theorem annuity_degenerate_returns_zero_witness :
    FinancialGuru.calculate_sip 1000000 0 12 = 0 ∧
    FinancialGuru.calculate_swp 1000000 0 12 = 0 ∧
    FinancialGuru.calculate_emi 1000000 12 0 = 0 :=
  annuity_degenerate_returns_zero 1000000 1000000 1000000 0 12 (Or.inl rfl)

/-- C5: the claim admits rate = 0, but there emi returns the degenerate 0,
so emi * months - principal = -principal < 0 although principal > 0,
years > 0 and rate >= 0 all hold. -/
theorem emi_zero_rate_negative_interest :
    0 < (1 : ℚ) ∧ 0 < (1 : ℕ) ∧ (0 : ℚ) ≤ 0 ∧
    FinancialGuru.calculate_emi 1 0 1 * (((1 : ℕ) : ℚ) * 12) - 1 < 0 := by
  refine ⟨by norm_num, by norm_num, le_rfl, ?_⟩
  norm_num [FinancialGuru.calculate_emi]

/-- C5 (amended): for principal > 0, years > 0 and rate > 0 (strictly), the
total interest emi * (years*12) - principal is non-negative. -/
theorem emi_total_interest_nonneg :
    ∀ (principal : ℚ) (years : ℕ) (rate : ℚ),
      0 < principal → 0 < years → 0 < rate →
      0 ≤ FinancialGuru.calculate_emi principal rate years * ((years : ℚ) * 12) -
        principal := by
  intro p y r hp hy hr
  have hi : 0 < r / 1200 := by positivity
  have hx1 : (1 : ℚ) ≤ 1 + r / 1200 := by linarith
  have hn : y * 12 ≠ 0 := (Nat.mul_pos hy (by norm_num)).ne'
  have hpow : 1 < (1 + r / 1200) ^ (y * 12) := one_lt_pow₀ (by linarith) hn
  have hdenom : 0 < (1 + r / 1200) ^ (y * 12) - 1 := by linarith
  simp only [FinancialGuru.calculate_emi]
  rw [if_neg hdenom.ne', sub_nonneg]
  have hcast : ((y : ℚ) * 12) = ((y * 12 : ℕ) : ℚ) := by push_cast; ring
  rw [hcast, div_mul_eq_mul_div, le_div_iff₀ hdenom]
  have hgeom : (∑ k ∈ Finset.range (y * 12), (1 + r / 1200) ^ k) * ((1 + r / 1200) - 1) =
      (1 + r / 1200) ^ (y * 12) - 1 := geom_sum_mul _ _
  have hsum_le : (∑ k ∈ Finset.range (y * 12), (1 + r / 1200) ^ k) ≤
      ((y * 12 : ℕ) : ℚ) * (1 + r / 1200) ^ (y * 12) := by
    calc (∑ k ∈ Finset.range (y * 12), (1 + r / 1200) ^ k)
        ≤ ∑ _k ∈ Finset.range (y * 12), (1 + r / 1200) ^ (y * 12) :=
          Finset.sum_le_sum fun k hk =>
            pow_le_pow_right₀ hx1 (Finset.mem_range.mp hk).le
      _ = ((y * 12 : ℕ) : ℚ) * (1 + r / 1200) ^ (y * 12) := by
          rw [Finset.sum_const, Finset.card_range, nsmul_eq_mul]
  have hkey : (1 + r / 1200) ^ (y * 12) - 1 ≤
      r / 1200 * (1 + r / 1200) ^ (y * 12) * ((y * 12 : ℕ) : ℚ) := by
    have h2 : (1 + r / 1200) ^ (y * 12) - 1 =
        (∑ k ∈ Finset.range (y * 12), (1 + r / 1200) ^ k) * (r / 1200) := by
      rw [← hgeom]; ring_nf
    rw [h2]
    calc (∑ k ∈ Finset.range (y * 12), (1 + r / 1200) ^ k) * (r / 1200)
        ≤ ((y * 12 : ℕ) : ℚ) * (1 + r / 1200) ^ (y * 12) * (r / 1200) :=
          mul_le_mul_of_nonneg_right hsum_le hi.le
      _ = r / 1200 * (1 + r / 1200) ^ (y * 12) * ((y * 12 : ℕ) : ℚ) := by ring
  calc p * ((1 + r / 1200) ^ (y * 12) - 1)
      ≤ p * (r / 1200 * (1 + r / 1200) ^ (y * 12) * ((y * 12 : ℕ) : ℚ)) :=
        mul_le_mul_of_nonneg_left hkey hp.le
    _ = p * (r / 1200) * (1 + r / 1200) ^ (y * 12) * ((y * 12 : ℕ) : ℚ) := by ring

/-- C5 witness: at principal = 100000, years = 1, rate = 12 the total
interest is non-negative. -/
theorem emi_total_interest_nonneg_witness :
    0 ≤ FinancialGuru.calculate_emi 100000 12 1 * (((1 : ℕ) : ℚ) * 12) - 100000 :=
  emi_total_interest_nonneg 100000 1 12 (by norm_num) (by norm_num) (by norm_num)

/-- C3: the goal plan is the exact composition of the inflation projection
with sip over the goal horizon at the fixed 12% rate and swp over the fixed
10-year horizon at the fixed 8% rate; concretely, plan(1000000, 10, 6) has
future value 1000000 * 1.06^10. -/
theorem create_goal_plan_composition :
    (∀ (goal_type : String) (current_cost : ℚ) (years : ℕ) (inflation : ℚ),
      FinancialGuru.create_goal_plan goal_type current_cost years inflation =
        ⟨current_cost * (1 + inflation / 100) ^ years,
         FinancialGuru.calculate_sip
           (current_cost * (1 + inflation / 100) ^ years) years 12,
         FinancialGuru.calculate_swp
           (current_cost * (1 + inflation / 100) ^ years) 10 8⟩) ∧
    (FinancialGuru.create_goal_plan "Retirement" 1000000 10 6).future_value =
      1000000 * (53 / 50 : ℚ) ^ 10 := by
  constructor
  · intro goal_type current_cost years inflation
    rfl
  · norm_num [FinancialGuru.create_goal_plan]

/-- C8: the three suggestion thresholds are independent checks, so an income
above all of them collects all three suggestions and an income below all of
them collects none. -/
theorem tax_saving_options_thresholds :
    (∀ income : ℚ,
      (FinancialGuru.elssSuggestion ∈ FinancialGuru.tax_saving_options income ↔
        1500000 < income) ∧
      (FinancialGuru.healthSuggestion ∈ FinancialGuru.tax_saving_options income ↔
        700000 < income) ∧
      (FinancialGuru.npsSuggestion ∈ FinancialGuru.tax_saving_options income ↔
        500000 < income)) ∧
    FinancialGuru.tax_saving_options 1600000 =
      [FinancialGuru.elssSuggestion, FinancialGuru.healthSuggestion,
        FinancialGuru.npsSuggestion] ∧
    FinancialGuru.tax_saving_options 400000 = [] := by
  have hne1 : FinancialGuru.elssSuggestion ≠ FinancialGuru.healthSuggestion := by
    simp [FinancialGuru.elssSuggestion, FinancialGuru.healthSuggestion]
  have hne2 : FinancialGuru.elssSuggestion ≠ FinancialGuru.npsSuggestion := by
    simp [FinancialGuru.elssSuggestion, FinancialGuru.npsSuggestion]
  have hne3 : FinancialGuru.healthSuggestion ≠ FinancialGuru.npsSuggestion := by
    simp [FinancialGuru.healthSuggestion, FinancialGuru.npsSuggestion]
  refine ⟨?_, ?_, ?_⟩
  · intro income
    by_cases h1 : (1500000 : ℚ) < income <;> by_cases h2 : (700000 : ℚ) < income <;>
      by_cases h3 : (500000 : ℚ) < income <;>
      simp [FinancialGuru.tax_saving_options, h1, h2, h3, hne1, hne2, hne3,
        Ne.symm hne1, Ne.symm hne2, Ne.symm hne3]
  · norm_num [FinancialGuru.tax_saving_options]
  · norm_num [FinancialGuru.tax_saving_options]

/-- C4: the risk score is not confined to [0,10].  On the series
[100, 1000, 100] the changes are +900% and -90%, the annualized
volatility exceeds 100, and min(int(10 - volatility*100), 10) is far
below 0: the code clamps only from above. -/
theorem risk_profile_below_zero :
    FinancialGuru._calculate_risk_profile [100, 1000, 100] < 0 := by
  have hvar : FinancialGuru.sampleVar (FinancialGuru.pctChanges [100, 1000, 100]) =
      9801 / 200 := by
    norm_num [FinancialGuru.pctChanges, FinancialGuru.sampleVar, FinancialGuru.listMean]
  unfold FinancialGuru._calculate_risk_profile
  rw [if_neg (by simp : ¬ (([100, 1000, 100] : List ℚ).isEmpty = true)),
    if_neg (by decide :
      ¬ (([100, 1000, 100] : List ℚ).dropLast.any (fun p => p == 0) = true)),
    if_neg (by norm_num : ¬ (([100, 1000, 100] : List ℚ).length < 3)), hvar]
  have hcast : (((9801 / 200 : ℚ) : ℝ)) = 9801 / 200 := by norm_num
  rw [hcast]
  have h7 : (7 : ℝ) ≤ Real.sqrt (9801 / 200) := Real.le_sqrt_of_sq_le (by norm_num)
  have h15 : (15 : ℝ) ≤ Real.sqrt 252 := Real.le_sqrt_of_sq_le (by norm_num)
  have hprod : (105 : ℝ) ≤ Real.sqrt (9801 / 200) * Real.sqrt 252 := by
    calc (105 : ℝ) = 7 * 15 := by norm_num
      _ ≤ _ := mul_le_mul h7 h15 (by norm_num) (Real.sqrt_nonneg _)
  have hval : (10 : ℝ) - Real.sqrt (9801 / 200) * Real.sqrt 252 * 100 ≤ -10490 := by
    have h100 := mul_le_mul_of_nonneg_right hprod (by norm_num : (0 : ℝ) ≤ 100)
    linarith
  have hpy : FinancialGuru.pyInt
      ((10 : ℝ) - Real.sqrt (9801 / 200) * Real.sqrt 252 * 100) ≤ -1 := by
    unfold FinancialGuru.pyInt
    rw [if_neg (by linarith :
      ¬ (0 : ℝ) ≤ (10 : ℝ) - Real.sqrt (9801 / 200) * Real.sqrt 252 * 100)]
    exact Int.ceil_le.mpr (by push_cast; linarith)
  calc min (FinancialGuru.pyInt
        ((10 : ℝ) - Real.sqrt (9801 / 200) * Real.sqrt 252 * 100)) 10
      ≤ FinancialGuru.pyInt
        ((10 : ℝ) - Real.sqrt (9801 / 200) * Real.sqrt 252 * 100) := min_le_left _ _
    _ ≤ -1 := hpy
    _ < 0 := by norm_num

/-- C4 (amended): the risk score is an integer clamped from above at 10
(every path returns either 5 or min(..., 10)), but it has no lower bound. -/
theorem risk_profile_le_ten :
    ∀ closes : List ℚ, FinancialGuru._calculate_risk_profile closes ≤ 10 := by
  intro closes
  unfold FinancialGuru._calculate_risk_profile
  split_ifs <;> norm_num

/-- C7: the risk scorer returns exactly the neutral default 5 on an empty
series, on a single-sample series, and on every computation-error path
from degenerate input (fewer than two percentage changes, so the ddof=1
standard deviation is NaN, or a zero previous close, so a change is
inf/NaN). -/
theorem risk_profile_degenerate_default :
    FinancialGuru._calculate_risk_profile [] = 5 ∧
    (∀ p : ℚ, FinancialGuru._calculate_risk_profile [p] = 5) ∧
    (∀ closes : List ℚ,
      closes.length < 3 ∨ closes.dropLast.any (fun p => p == 0) = true →
      FinancialGuru._calculate_risk_profile closes = 5) := by
  refine ⟨rfl, ?_, ?_⟩
  · intro p
    simp [FinancialGuru._calculate_risk_profile]
  · intro closes h
    unfold FinancialGuru._calculate_risk_profile
    split_ifs with g1 g2 g3
    · rfl
    · rfl
    · rfl
    · exfalso
      rcases h with h | h
      · exact g3 h
      · exact g2 h

/-- C7 witness: a three-sample series whose first close is 0 (a degenerate
computation-error input) scores the neutral default 5. -/
theorem risk_profile_degenerate_default_witness :
    FinancialGuru._calculate_risk_profile [0, 5, 7] = 5 :=
  risk_profile_degenerate_default.2.2 [0, 5, 7] (Or.inr (by decide))
